import Mathlib

/-
Shallow embedding of the caching-strategy demo (src/app.py).

Modelling conventions:
  * A Python product dict is `ProductData`: each field is `Option`-valued
    because `dict.get` returns `None` for a missing key ("key absent" and
    "key present with value None" are conflated; no entry point produces
    the latter).  Prices (SQLite REAL / Python float) are modelled as `ℚ`;
    no claim performs float arithmetic.
  * Redis is an association list from string keys to entries carrying the
    deserialised product and the `setex` expiry; the SQLite `products`
    table is an association list from id to row.  TTL passage of time is
    not modelled (no claim depends on expiry elapsing).
  * Fallible I/O is driven by explicit fault flags in `Sys`:
    `cacheFail` (every redis command raises RedisError), `dbFail` (sqlite
    execute/commit/connect-in-request raises sqlite3.Error), and
    `wbConnectFail` (the write-back worker's own `sqlite3.connect` raises
    sqlite3.Error; the source handles this case separately — see the
    `'conn_wb' in locals()` guard).
  * Python exceptions that escape a function are modelled with
    `Except WriteErr`; functions that catch every exception are total.
  * The `@timer` decorator only appends to `Metrics.operation_times`;
    no claim concerns latency samples, so `Metrics` keeps the four
    counters and `get_stats` returns them plus the hit rate.
  * The background worker thread is modelled sequentially: `process_item`
    is the body of one iteration of `process_write_back_queue` acting on a
    dequeued item, and `stop_write_back_thread` performs the drain that
    `write_back_queue.join()` waits for.
-/

namespace CachingDemo

/-- A Python product dict. `none` in a field models `dict.get` returning `None`. -/
structure ProductData where
  id : Option Int
  name : Option String
  price : Option ℚ
  description : Option String
deriving DecidableEq, Repr

/-- A row of the SQLite `products` table (`name`/`price` NOT NULL, `description` nullable). -/
structure Row where
  name : String
  price : ℚ
  description : Option String
deriving DecidableEq, Repr

/-- A Redis entry written by `setex`: deserialised value plus the expiry argument. -/
structure CVal where
  data : ProductData
  expiry : Nat
deriving DecidableEq, Repr

/-- The four counters of the `Metrics` class (`operation_times` omitted, see header). -/
structure Metrics where
  cache_hits : Nat
  cache_misses : Nat
  db_reads : Nat
  db_writes : Nat
deriving DecidableEq, Repr

/-- Whole-system state: redis, sqlite, the write-back queue and running flag,
metrics, and the fault-injection flags. -/
structure Sys where
  cache : List (String × CVal)
  db : List (Int × Row)
  queue : List ProductData
  running : Bool
  metrics : Metrics
  cacheFail : Bool
  dbFail : Bool
  wbConnectFail : Bool
deriving DecidableEq, Repr

/-- Exceptions that escape a strategy write: `ValueError` from `save_to_db`
validation, a propagated `sqlite3.Error`, and the `IOError` raised by
`write_back_write` when the cache set fails. -/
inductive WriteErr
  | validation
  | storeUnavailable
  | cacheSetFailed
deriving DecidableEq, Repr

/-- Association-list lookup for the redis model. -/
def lookupCache : List (String × CVal) → String → Option CVal
  | [], _ => none
  | (k, v) :: rest, key => if k = key then some v else lookupCache rest key

/-- Association-list overwrite-or-append for `redis.setex`. -/
def setCache : List (String × CVal) → String → CVal → List (String × CVal)
  | [], key, v => [(key, v)]
  | (k, v') :: rest, key, v =>
    if k = key then (key, v) :: rest else (k, v') :: setCache rest key v

/-- Association-list removal for `redis.delete`. -/
def eraseCache : List (String × CVal) → String → List (String × CVal)
  | [], _ => []
  | (k, v) :: rest, key =>
    if k = key then eraseCache rest key else (k, v) :: eraseCache rest key

/-- Association-list lookup for the `products` table. -/
def lookupDb : List (Int × Row) → Int → Option Row
  | [], _ => none
  | (i, r) :: rest, key => if i = key then some r else lookupDb rest key

/-- The UPDATE-if-exists / INSERT-otherwise upsert of `save_to_db`. -/
def setDb : List (Int × Row) → Int → Row → List (Int × Row)
  | [], key, r => [(key, r)]
  | (i, r') :: rest, key, r =>
    if i = key then (key, r) :: rest else (i, r') :: setDb rest key r

def Metrics.record_cache_hit (m : Metrics) : Metrics :=
  { m with cache_hits := m.cache_hits + 1 }

def Metrics.record_cache_miss (m : Metrics) : Metrics :=
  { m with cache_misses := m.cache_misses + 1 }

def Metrics.record_db_read (m : Metrics) : Metrics :=
  { m with db_reads := m.db_reads + 1 }

def Metrics.record_db_write (m : Metrics) : Metrics :=
  { m with db_writes := m.db_writes + 1 }

def Sys.record_cache_hit (s : Sys) : Sys := { s with metrics := s.metrics.record_cache_hit }

def Sys.record_cache_miss (s : Sys) : Sys := { s with metrics := s.metrics.record_cache_miss }

def Sys.record_db_read (s : Sys) : Sys := { s with metrics := s.metrics.record_db_read }

def Sys.record_db_write (s : Sys) : Sys := { s with metrics := s.metrics.record_db_write }

/-- The dict returned by `Metrics.get_stats` (average latency map omitted). -/
structure Snapshot where
  cache_hits : Nat
  cache_misses : Nat
  hit_rate : ℚ
  db_reads : Nat
  db_writes : Nat
deriving DecidableEq, Repr

/-- `Metrics.get_stats`: the hit rate starts at 0 and is overwritten with
`cache_hits / total_lookups * 100` when there was at least one lookup. -/
def Metrics.get_stats (m : Metrics) : Snapshot :=
  let total_lookups := m.cache_hits + m.cache_misses
  let hit_rate : ℚ :=
    if 0 < total_lookups then (m.cache_hits : ℚ) / (total_lookups : ℚ) * 100 else 0
  { cache_hits := m.cache_hits
    cache_misses := m.cache_misses
    hit_rate := hit_rate
    db_reads := m.db_reads
    db_writes := m.db_writes }

/-- Python string interpolation of a possibly-`None` id, as in `f"product:{product_id}"`. -/
def pyShow : Option Int → String
  | some i => toString i
  | none => "None"

/-- The `cache_key` computed by `get_from_cache`, `save_to_cache` and
`invalidate_cache`: `f"product:{product_id}"`. -/
def cache_key (pid : Option Int) : String := "product:" ++ pyShow pid

/-- `get_from_db`: records a db read first, then queries; every
`sqlite3.Error` is caught, logged and turned into `None`. -/
def get_from_db (product_id : Int) (s : Sys) : Option Row × Sys :=
  let s := s.record_db_read
  if s.dbFail then (none, s)
  else (lookupDb s.db product_id, s)

/-- `save_to_db`: records a db write first (even when the data is invalid or
the DB errors), raises `ValueError` when id/name/price is missing, then
upserts; a `sqlite3.Error` rolls back and re-raises. -/
def save_to_db (d : ProductData) (s : Sys) : Except WriteErr ProductData × Sys :=
  let s := s.record_db_write
  match d.id, d.name, d.price with
  | some i, some n, some p =>
    if s.dbFail then (Except.error WriteErr.storeUnavailable, s)
    else (Except.ok d, { s with db := setDb s.db i ⟨n, p, d.description⟩ })
  | _, _, _ => (Except.error WriteErr.validation, s)

/-- `get_from_cache`: a `RedisError` is caught and counted as a miss; a hit
records the hit metric.  (The `json.JSONDecodeError` branch is unreachable
here because the model's cache stores structured values.) -/
def get_from_cache (product_id : Int) (s : Sys) : Option ProductData × Sys :=
  if s.cacheFail then (none, s.record_cache_miss)
  else
    match lookupCache s.cache (cache_key (some product_id)) with
    | some v => (some v.data, s.record_cache_hit)
    | none => (none, s.record_cache_miss)

/-- `save_to_cache`: returns `None` (no exception) when the data has no id or
the `setex` raises; on success stores the entry under `cache_key` with the
given expiry and returns the data. -/
def save_to_cache (d : ProductData) (expiry : Nat) (s : Sys) : Option ProductData × Sys :=
  match d.id with
  | none => (none, s)
  | some i =>
    if s.cacheFail then (none, s)
    else (some d, { s with cache := setCache s.cache (cache_key (some i)) ⟨d, expiry⟩ })

/-- `invalidate_cache`: deletes the key, returning whether it existed; a
`RedisError` is caught and yields `False`. -/
def invalidate_cache (pid : Option Int) (s : Sys) : Bool × Sys :=
  if s.cacheFail then (false, s)
  else
    ((lookupCache s.cache (cache_key pid)).isSome,
      { s with cache := eraseCache s.cache (cache_key pid) })

/-- The dict built by `get_from_db`'s caller from a fetched row
(`dict(product)` has all four columns). -/
def rowToData (pid : Int) (r : Row) : ProductData :=
  ⟨some pid, some r.name, some r.price, r.description⟩

/-- `cache_aside_read`: return a cache hit immediately; on a miss read the
store (never raises — `get_from_db` swallows `sqlite3.Error`, and the
surrounding `try/except` also logs without re-raising) and, when a row was
found, populate the cache best-effort. -/
def cache_aside_read (product_id : Int) (s : Sys) : Option ProductData × Sys :=
  match get_from_cache product_id s with
  | (some p, s) => (some p, s)
  | (none, s) =>
    match get_from_db product_id s with
    | (some row, s) =>
      let d := rowToData product_id row
      (some d, (save_to_cache d 3600 s).2)
    | (none, s) => (none, s)

/-- `read_through_read`: a literal duplicate of the cache-aside read body in
the source. -/
def read_through_read (product_id : Int) (s : Sys) : Option ProductData × Sys :=
  match get_from_cache product_id s with
  | (some p, s) => (some p, s)
  | (none, s) =>
    match get_from_db product_id s with
    | (some row, s) =>
      let d := rowToData product_id row
      (some d, (save_to_cache d 3600 s).2)
    | (none, s) => (none, s)

/-- `write_through_read` delegates to `cache_aside_read`. -/
def write_through_read (product_id : Int) (s : Sys) : Option ProductData × Sys :=
  cache_aside_read product_id s

/-- `write_around_read` delegates to `cache_aside_read`. -/
def write_around_read (product_id : Int) (s : Sys) : Option ProductData × Sys :=
  cache_aside_read product_id s

/-- `write_back_read` delegates to `cache_aside_read`. -/
def write_back_read (product_id : Int) (s : Sys) : Option ProductData × Sys :=
  cache_aside_read product_id s

/-- `cache_aside_write`: save to the store; only on success invalidate the
cache entry; any exception from `save_to_db` is logged and re-raised before
the invalidation is reached. -/
def cache_aside_write (d : ProductData) (s : Sys) : Except WriteErr ProductData × Sys :=
  match save_to_db d s with
  | (Except.ok _, s) => (Except.ok d, (invalidate_cache d.id s).2)
  | (Except.error e, s) => (Except.error e, s)

/-- `read_through_write`: a literal duplicate of the cache-aside write body in
the source. -/
def read_through_write (d : ProductData) (s : Sys) : Except WriteErr ProductData × Sys :=
  match save_to_db d s with
  | (Except.ok _, s) => (Except.ok d, (invalidate_cache d.id s).2)
  | (Except.error e, s) => (Except.error e, s)

/-- `write_through_write`: save to the store, then set the cache; a falsy
`save_to_cache` result is only logged (the write still returns the data);
an exception from `save_to_db` is re-raised. -/
def write_through_write (d : ProductData) (s : Sys) : Except WriteErr ProductData × Sys :=
  match save_to_db d s with
  | (Except.ok _, s) => (Except.ok d, (save_to_cache d 3600 s).2)
  | (Except.error e, s) => (Except.error e, s)

/-- `write_around_write`: save to the store only, bypassing the cache; an
exception from `save_to_db` is re-raised. -/
def write_around_write (d : ProductData) (s : Sys) : Except WriteErr ProductData × Sys :=
  match save_to_db d s with
  | (Except.ok _, s) => (Except.ok d, s)
  | (Except.error e, s) => (Except.error e, s)

/-- `write_back_write`: set the cache; on success enqueue the data for the
background worker (`queue.Queue().put` on an unbounded queue cannot raise,
so the enqueue-failure handler is dead code); on a falsy cache result raise
`IOError` without touching queue or store. -/
def write_back_write (d : ProductData) (s : Sys) : Except WriteErr ProductData × Sys :=
  match save_to_cache d 3600 s with
  | (some _, s) => (Except.ok d, { s with queue := s.queue ++ [d] })
  | (none, s) => (Except.error WriteErr.cacheSetFailed, s)

/-- One iteration of `process_write_back_queue` on a dequeued item: open a
fresh sqlite connection (if `sqlite3.connect` raises, the item is dropped
before the db-write metric is recorded), record the db write, drop invalid
items, then upsert; a `sqlite3.Error` during the upsert drops the item
without retry. -/
def process_item (d : ProductData) (s : Sys) : Sys :=
  if s.wbConnectFail then s
  else
    let s := s.record_db_write
    match d.id, d.name, d.price with
    | some i, some n, some p =>
      if s.dbFail then s
      else { s with db := setDb s.db i ⟨n, p, d.description⟩ }
    | _, _, _ => s

/-- The worker consuming a list of dequeued items in FIFO order. -/
def drainItems (items : List ProductData) (s : Sys) : Sys :=
  match items with
  | [] => s
  | d :: rest => drainItems rest (process_item d s)

/-- `stop_write_back_thread`: a no-op when the pipeline is not running;
otherwise clear the running flag and wait (`write_back_queue.join()`) while
the worker drains every queued item — the worker loop
`while write_back_running or not write_back_queue.empty()` keeps consuming
until the queue is empty. -/
def stop_write_back_thread (s : Sys) : Sys :=
  if s.running then drainItems s.queue { s with running := false, queue := [] }
  else s

/-! ### Helper lemmas -/

@[simp] theorem record_db_write_cacheFail (s : Sys) :
    (Sys.record_db_write s).cacheFail = s.cacheFail := rfl

@[simp] theorem record_db_write_dbFail (s : Sys) :
    (Sys.record_db_write s).dbFail = s.dbFail := rfl

@[simp] theorem record_db_write_wbConnectFail (s : Sys) :
    (Sys.record_db_write s).wbConnectFail = s.wbConnectFail := rfl

@[simp] theorem record_db_write_cache (s : Sys) :
    (Sys.record_db_write s).cache = s.cache := rfl

@[simp] theorem record_db_write_db (s : Sys) :
    (Sys.record_db_write s).db = s.db := rfl

@[simp] theorem record_db_write_queue (s : Sys) :
    (Sys.record_db_write s).queue = s.queue := rfl

@[simp] theorem record_db_write_running (s : Sys) :
    (Sys.record_db_write s).running = s.running := rfl

@[simp] theorem record_db_write_db_writes (s : Sys) :
    (Sys.record_db_write s).metrics.db_writes = s.metrics.db_writes + 1 := rfl

@[simp] theorem record_db_read_dbFail (s : Sys) :
    (Sys.record_db_read s).dbFail = s.dbFail := rfl

@[simp] theorem record_db_read_db (s : Sys) :
    (Sys.record_db_read s).db = s.db := rfl

@[simp] theorem record_db_read_cacheFail (s : Sys) :
    (Sys.record_db_read s).cacheFail = s.cacheFail := rfl

@[simp] theorem record_cache_miss_cache (s : Sys) :
    (Sys.record_cache_miss s).cache = s.cache := rfl

@[simp] theorem record_cache_miss_dbFail (s : Sys) :
    (Sys.record_cache_miss s).dbFail = s.dbFail := rfl

@[simp] theorem record_cache_miss_db (s : Sys) :
    (Sys.record_cache_miss s).db = s.db := rfl

theorem lookup_setCache_self (l : List (String × CVal)) (k : String) (v : CVal) :
    lookupCache (setCache l k v) k = some v := by
  induction l with
  | nil => simp [setCache, lookupCache]
  | cons hd tl ih =>
    obtain ⟨a, b⟩ := hd
    by_cases h : a = k
    · simp [setCache, lookupCache, h]
    · simp [setCache, lookupCache, h, ih]

theorem lookup_setCache_ne (l : List (String × CVal)) (k k' : String) (v : CVal)
    (h : k' ≠ k) : lookupCache (setCache l k v) k' = lookupCache l k' := by
  have hk : ¬(k = k') := fun e => h e.symm
  induction l with
  | nil => simp [setCache, lookupCache, hk]
  | cons hd tl ih =>
    obtain ⟨a, b⟩ := hd
    by_cases h1 : a = k
    · subst h1
      simp [setCache, lookupCache, hk]
    · by_cases h2 : a = k'
      · simp [setCache, lookupCache, h1, h2, h]
      · simp [setCache, lookupCache, h1, h2, ih]

theorem lookup_eraseCache_self (l : List (String × CVal)) (k : String) :
    lookupCache (eraseCache l k) k = none := by
  induction l with
  | nil => simp [eraseCache, lookupCache]
  | cons hd tl ih =>
    obtain ⟨a, b⟩ := hd
    by_cases h : a = k
    · simp [eraseCache, h, ih]
    · simp [eraseCache, lookupCache, h, ih]

theorem lookup_eraseCache_ne (l : List (String × CVal)) (k k' : String)
    (h : k' ≠ k) : lookupCache (eraseCache l k) k' = lookupCache l k' := by
  have hk : ¬(k = k') := fun e => h e.symm
  induction l with
  | nil => simp [eraseCache, lookupCache]
  | cons hd tl ih =>
    obtain ⟨a, b⟩ := hd
    by_cases h1 : a = k
    · subst h1
      simp [eraseCache, lookupCache, hk, ih]
    · by_cases h2 : a = k'
      · simp [eraseCache, lookupCache, h1, h2, h]
      · simp [eraseCache, lookupCache, h1, h2, ih]

theorem lookup_setDb_self (l : List (Int × Row)) (i : Int) (r : Row) :
    lookupDb (setDb l i r) i = some r := by
  induction l with
  | nil => simp [setDb, lookupDb]
  | cons hd tl ih =>
    obtain ⟨a, b⟩ := hd
    by_cases h : a = i
    · simp [setDb, lookupDb, h]
    · simp [setDb, lookupDb, h, ih]

/-- `process_item` only ever changes the db contents and the metrics. -/
theorem process_item_effects (d : ProductData) (s : Sys) :
    (process_item d s).queue = s.queue ∧
    (process_item d s).dbFail = s.dbFail ∧
    (process_item d s).wbConnectFail = s.wbConnectFail ∧
    (process_item d s).running = s.running ∧
    (process_item d s).cache = s.cache ∧
    (process_item d s).cacheFail = s.cacheFail := by
  obtain ⟨oid, oname, oprice, odesc⟩ := d
  obtain ⟨c, db, q, r, m, cf, df, wf⟩ := s
  cases wf <;> cases df <;> cases oid <;> cases oname <;> cases oprice <;>
    exact ⟨rfl, rfl, rfl, rfl, rfl, rfl⟩

theorem process_item_queue (d : ProductData) (s : Sys) :
    (process_item d s).queue = s.queue :=
  (process_item_effects d s).1

theorem process_item_dbFail (d : ProductData) (s : Sys) :
    (process_item d s).dbFail = s.dbFail :=
  (process_item_effects d s).2.1

theorem process_item_wbConnectFail (d : ProductData) (s : Sys) :
    (process_item d s).wbConnectFail = s.wbConnectFail :=
  (process_item_effects d s).2.2.1

theorem drainItems_queue (items : List ProductData) (s : Sys) :
    (drainItems items s).queue = s.queue := by
  induction items generalizing s with
  | nil => rfl
  | cons d rest ih => simp [drainItems, ih, process_item_queue]

theorem drainItems_dbFail (items : List ProductData) (s : Sys) :
    (drainItems items s).dbFail = s.dbFail := by
  induction items generalizing s with
  | nil => rfl
  | cons d rest ih => simp [drainItems, ih, process_item_dbFail]

theorem drainItems_wbConnectFail (items : List ProductData) (s : Sys) :
    (drainItems items s).wbConnectFail = s.wbConnectFail := by
  induction items generalizing s with
  | nil => rfl
  | cons d rest ih => simp [drainItems, ih, process_item_wbConnectFail]

theorem process_item_running (d : ProductData) (s : Sys) :
    (process_item d s).running = s.running :=
  (process_item_effects d s).2.2.2.1

theorem drainItems_running (items : List ProductData) (s : Sys) :
    (drainItems items s).running = s.running := by
  induction items generalizing s with
  | nil => rfl
  | cons d rest ih => simp [drainItems, ih, process_item_running]

/-- A valid item processed by a worker whose connection opens and whose DB
is healthy is upserted into the store. -/
theorem process_item_valid_db (d : ProductData) (s : Sys) (i : Int) (n : String)
    (p : ℚ) (hid : d.id = some i) (hn : d.name = some n) (hp : d.price = some p)
    (hdb : s.dbFail = false) (hwb : s.wbConnectFail = false) :
    (process_item d s).db = setDb s.db i ⟨n, p, d.description⟩ := by
  unfold process_item
  rw [hid, hn, hp]
  simp [hwb, hdb]

theorem drainItems_append (a b : List ProductData) (s : Sys) :
    drainItems (a ++ b) s = drainItems b (drainItems a s) := by
  induction a generalizing s with
  | nil => rfl
  | cons d rest ih => simp [drainItems, ih]

/-! ### Concrete states for witnesses and counterexamples -/

/-- A fresh healthy system. -/
def sysOk : Sys :=
  { cache := [], db := [], queue := [], running := false,
    metrics := ⟨0, 0, 0, 0⟩, cacheFail := false, dbFail := false, wbConnectFail := false }

/-- A system whose store errors, holding a stale cache entry for id 1. -/
def sysDbDown : Sys :=
  { cache := [(cache_key (some 1), ⟨⟨some 1, some "Old", some 5, none⟩, 3600⟩)],
    db := [], queue := [], running := false,
    metrics := ⟨0, 0, 0, 0⟩, cacheFail := false, dbFail := true, wbConnectFail := false }

/-- A healthy system holding a stale cache entry and a stored row for id 1. -/
def sysDbUp : Sys :=
  { cache := [(cache_key (some 1), ⟨⟨some 1, some "Old", some 5, none⟩, 3600⟩)],
    db := [(1, ⟨"Old", 5, none⟩)], queue := [], running := false,
    metrics := ⟨0, 0, 0, 0⟩, cacheFail := false, dbFail := false, wbConnectFail := false }

/-- A system whose redis errors (store healthy), pipeline running. -/
def sysCacheDown : Sys :=
  { cache := [], db := [], queue := [], running := true,
    metrics := ⟨0, 0, 0, 0⟩, cacheFail := true, dbFail := false, wbConnectFail := false }

/-! ### Claim theorems -/

/-- C1: for every cache-aside (and read-through) write, a store upsert
failure propagates the error to the caller and the cache entry is left
untouched — no invalidation happens on the failure path. -/
theorem c1_store_failure_propagates_cache_untouched
    (d : ProductData) (s : Sys) (i : Int) (n : String) (p : ℚ)
    (hid : d.id = some i) (hn : d.name = some n) (hp : d.price = some p)
    (hfail : s.dbFail = true) :
    (cache_aside_write d s).1 = Except.error WriteErr.storeUnavailable ∧
    (cache_aside_write d s).2.cache = s.cache ∧
    (read_through_write d s).1 = Except.error WriteErr.storeUnavailable ∧
    (read_through_write d s).2.cache = s.cache := by
  unfold cache_aside_write read_through_write save_to_db
  rw [hid, hn, hp]
  simp [hfail]

/-- Witness for C1: a concrete write against a failing store, with a stale
cache entry that survives untouched. -/
theorem c1_witness :
    (cache_aside_write ⟨some 1, some "A", some 10, none⟩ sysDbDown).1
        = Except.error WriteErr.storeUnavailable ∧
    (cache_aside_write ⟨some 1, some "A", some 10, none⟩ sysDbDown).2.cache
        = sysDbDown.cache ∧
    (read_through_write ⟨some 1, some "A", some 10, none⟩ sysDbDown).1
        = Except.error WriteErr.storeUnavailable ∧
    (read_through_write ⟨some 1, some "A", some 10, none⟩ sysDbDown).2.cache
        = sysDbDown.cache :=
  c1_store_failure_propagates_cache_untouched _ _ 1 "A" 10 rfl rfl rfl rfl

/-- C2: if the cache set fails, a write_back write raises the hard `IOError`
and returns with the system state exactly as before: nothing is enqueued and
the durable store is not touched synchronously. -/
theorem c2_write_back_cache_failure_hard_error (d : ProductData) (s : Sys)
    (hfail : (save_to_cache d 3600 s).1 = none) :
    (write_back_write d s).1 = Except.error WriteErr.cacheSetFailed ∧
    (write_back_write d s).2 = s := by
  have h : write_back_write d s = (Except.error WriteErr.cacheSetFailed, s) := by
    unfold write_back_write
    rcases hd : d.id with _ | i
    · simp [save_to_cache, hd]
    · by_cases hc : s.cacheFail
      · simp [save_to_cache, hd, hc]
      · exfalso
        rw [show (save_to_cache d 3600 s).1 = some d from by
          simp [save_to_cache, hd, hc]] at hfail
        exact Option.noConfusion hfail
  exact ⟨by rw [h], by rw [h]⟩

/-- Witness for C2: a concrete write_back write while redis is down. -/
theorem c2_witness :
    (write_back_write ⟨some 2, some "B", some 20, none⟩ sysCacheDown).1
        = Except.error WriteErr.cacheSetFailed ∧
    (write_back_write ⟨some 2, some "B", some 20, none⟩ sysCacheDown).2
        = sysCacheDown :=
  c2_write_back_cache_failure_hard_error _ _ rfl

/-- C7: a write_through write whose store upsert succeeds but whose cache set
fails still returns the record successfully; the cache failure is not
propagated (the cache is simply left unchanged). -/
theorem c7_write_through_tolerates_cache_failure
    (d : ProductData) (s : Sys) (i : Int) (n : String) (p : ℚ)
    (hid : d.id = some i) (hn : d.name = some n) (hp : d.price = some p)
    (hdb : s.dbFail = false) (hcf : s.cacheFail = true) :
    (save_to_cache d 3600 (save_to_db d s).2).1 = none ∧
    (write_through_write d s).1 = Except.ok d ∧
    lookupDb (write_through_write d s).2.db i = some ⟨n, p, d.description⟩ ∧
    (write_through_write d s).2.cache = s.cache := by
  unfold write_through_write save_to_db save_to_cache
  rw [hid, hn, hp]
  simp [hdb, hcf, lookup_setDb_self]

/-- Witness for C7: a concrete write_through write while redis is down. -/
theorem c7_witness :
    (save_to_cache ⟨some 3, some "C", some 30, none⟩ 3600
        (save_to_db ⟨some 3, some "C", some 30, none⟩ sysCacheDown).2).1 = none ∧
    (write_through_write ⟨some 3, some "C", some 30, none⟩ sysCacheDown).1
        = Except.ok ⟨some 3, some "C", some 30, none⟩ ∧
    lookupDb (write_through_write ⟨some 3, some "C", some 30, none⟩ sysCacheDown).2.db 3
        = some ⟨"C", 30, none⟩ ∧
    (write_through_write ⟨some 3, some "C", some 30, none⟩ sysCacheDown).2.cache
        = sysCacheDown.cache :=
  c7_write_through_tolerates_cache_failure _ _ 3 "C" 30 rfl rfl rfl rfl rfl

/-- C8: a write_around write leaves the entire cache state and the hit/miss
counters unchanged, and (when the data is valid and the store healthy)
upserts the record to the store and returns it. -/
theorem c8_write_around_bypasses_cache (d : ProductData) (s : Sys) :
    ((write_around_write d s).2.cache = s.cache ∧
     (write_around_write d s).2.metrics.cache_hits = s.metrics.cache_hits ∧
     (write_around_write d s).2.metrics.cache_misses = s.metrics.cache_misses) ∧
    (∀ i n p, d.id = some i → d.name = some n → d.price = some p →
      s.dbFail = false →
      (write_around_write d s).1 = Except.ok d ∧
      lookupDb (write_around_write d s).2.db i = some ⟨n, p, d.description⟩) := by
  constructor
  · obtain ⟨oid, oname, oprice, odesc⟩ := d
    obtain ⟨c, db, q, r, m, cf, df, wf⟩ := s
    cases df <;> cases oid <;> cases oname <;> cases oprice <;> exact ⟨rfl, rfl, rfl⟩
  · intro i n p hi hn hp hdb
    unfold write_around_write save_to_db
    rw [hi, hn, hp]
    simp [hdb, lookup_setDb_self]

/-- Witness for C8: a concrete write_around write with a previously cached
stale entry for the same id, which stays in place. -/
theorem c8_witness :
    ((write_around_write ⟨some 1, some "D", some 40, none⟩ sysDbUp).2.cache
        = sysDbUp.cache ∧
     (write_around_write ⟨some 1, some "D", some 40, none⟩ sysDbUp).2.metrics.cache_hits
        = sysDbUp.metrics.cache_hits ∧
     (write_around_write ⟨some 1, some "D", some 40, none⟩ sysDbUp).2.metrics.cache_misses
        = sysDbUp.metrics.cache_misses) ∧
    ((write_around_write ⟨some 1, some "D", some 40, none⟩ sysDbUp).1
        = Except.ok ⟨some 1, some "D", some 40, none⟩ ∧
     lookupDb (write_around_write ⟨some 1, some "D", some 40, none⟩ sysDbUp).2.db 1
        = some ⟨"D", 40, none⟩) :=
  ⟨(c8_write_around_bypasses_cache ⟨some 1, some "D", some 40, none⟩ sysDbUp).1,
   (c8_write_around_bypasses_cache ⟨some 1, some "D", some 40, none⟩ sysDbUp).2
     1 "D" 40 rfl rfl rfl rfl⟩

/-- C3 counterexample: with one hit and one miss, `get_stats` reports a hit
rate of 50 — not the plain ratio `hits / (hits + misses) = 1/2`. -/
theorem c3_counterexample :
    (Metrics.get_stats ⟨1, 1, 0, 0⟩).hit_rate = 50 ∧
    (Metrics.get_stats ⟨1, 1, 0, 0⟩).hit_rate ≠ (1 : ℚ) / ((1 : ℚ) + (1 : ℚ)) := by
  constructor
  · norm_num [Metrics.get_stats]
  · norm_num [Metrics.get_stats]

/-- C3 (amended): the snapshot reports the hit rate as a percentage,
`hits / (hits + misses) * 100`, and reports 0 when no lookups occurred. -/
theorem c3_hit_rate_is_percentage (m : Metrics) :
    (m.cache_hits + m.cache_misses = 0 → (Metrics.get_stats m).hit_rate = 0) ∧
    (0 < m.cache_hits + m.cache_misses →
      (Metrics.get_stats m).hit_rate
        = (m.cache_hits : ℚ) / ((m.cache_hits : ℚ) + (m.cache_misses : ℚ)) * 100) := by
  constructor
  · intro h
    simp [Metrics.get_stats, h]
  · intro h
    simp only [Metrics.get_stats, h, if_pos]
    push_cast
    ring

/-- Witness for C3: a fresh collector reports 0; three hits against one miss
report 75. -/
theorem c3_witness :
    (Metrics.get_stats ⟨0, 0, 0, 0⟩).hit_rate = 0 ∧
    (Metrics.get_stats ⟨3, 1, 2, 5⟩).hit_rate = 75 := by
  constructor
  · exact (c3_hit_rate_is_percentage ⟨0, 0, 0, 0⟩).1 rfl
  · rw [(c3_hit_rate_is_percentage ⟨3, 1, 2, 5⟩).2 (by norm_num)]
    norm_num

/-- A failing store that nevertheless holds a row for id 1, empty cache. -/
def sysReadFault : Sys :=
  { cache := [], db := [(1, ⟨"A", 10, none⟩)], queue := [], running := false,
    metrics := ⟨0, 0, 0, 0⟩, cacheFail := false, dbFail := true, wbConnectFail := false }

/-- C4 counterexample: when the store read on the cache-miss fallback fails,
the read returns `none` — byte-identical to a genuine not-found against an
empty healthy store — although the row exists and the store read was
attempted; no error reaches the caller. -/
theorem c4_counterexample :
    (cache_aside_read 1 sysReadFault).1 = none ∧
    (cache_aside_read 1 sysReadFault).1 = (cache_aside_read 1 sysOk).1 ∧
    (cache_aside_read 1 sysReadFault).2.metrics.db_reads = 1 ∧
    lookupDb sysReadFault.db 1 = some ⟨"A", 10, none⟩ :=
  ⟨rfl, rfl, rfl, rfl⟩

/-- C4 (amended): a store failure on the cache-miss fallback path is caught
and logged: the read records the miss and the store-read attempt and returns
`none` (mapped to not-found); the error is not propagated to the caller. -/
theorem c4_read_fallback_swallows_store_error (pid : Int) (s : Sys)
    (hmiss : (get_from_cache pid s).1 = none) (hfail : s.dbFail = true) :
    cache_aside_read pid s = (none, (Sys.record_cache_miss s).record_db_read) ∧
    read_through_read pid s = (none, (Sys.record_cache_miss s).record_db_read) := by
  have hg : get_from_cache pid s = (none, s.record_cache_miss) := by
    by_cases hc : s.cacheFail
    · simp [get_from_cache, hc]
    · rcases hl : lookupCache s.cache (cache_key (some pid)) with _ | v
      · simp [get_from_cache, hc, hl]
      · exfalso
        rw [show (get_from_cache pid s).1 = some v.data from by
          simp [get_from_cache, hc, hl]] at hmiss
        exact Option.noConfusion hmiss
  constructor
  · unfold cache_aside_read
    rw [hg]
    unfold get_from_db
    simp [hfail]
  · unfold read_through_read
    rw [hg]
    unfold get_from_db
    simp [hfail]

/-- Witness for C4: the concrete faulty read of `c4_counterexample`,
obtained through the general theorem. -/
theorem c4_witness :
    cache_aside_read 2 sysReadFault
        = (none, (Sys.record_cache_miss sysReadFault).record_db_read) ∧
    read_through_read 2 sysReadFault
        = (none, (Sys.record_cache_miss sysReadFault).record_db_read) :=
  c4_read_fallback_swallows_store_error 2 sysReadFault rfl rfl

/-- C5 counterexample: the engine stores record id 1 under the key
`"product:1"`; nothing sits under `"record:1"`, and the two differ. -/
theorem c5_counterexample :
    (save_to_cache ⟨some 1, some "A", some 10, none⟩ 3600 sysOk).2.cache
        = [("product:1", ⟨⟨some 1, some "A", some 10, none⟩, 3600⟩)] ∧
    lookupCache (save_to_cache ⟨some 1, some "A", some 10, none⟩ 3600 sysOk).2.cache
        ("record:" ++ toString (1 : Int)) = none ∧
    cache_key (some 1) ≠ "record:" ++ toString (1 : Int) := by
  refine ⟨by decide, by decide, by decide⟩

/-- C5 (amended): every cache get, set and delete performed by the engine is
keyed by `"product:"` followed by the record id: a get consults exactly that
key, a successful set stores the entry under it and touches no other key,
and a delete removes it and touches no other key. -/
theorem c5_cache_keys_product_prefixed (pid i : Int) (d : ProductData) (s : Sys)
    (k : String) (hid : d.id = some i) (hcf : s.cacheFail = false)
    (hk : k ≠ "product:" ++ toString i) :
    cache_key (some pid) = "product:" ++ toString pid ∧
    (get_from_cache pid s).1
        = (lookupCache s.cache ("product:" ++ toString pid)).map CVal.data ∧
    lookupCache (save_to_cache d 3600 s).2.cache ("product:" ++ toString i)
        = some ⟨d, 3600⟩ ∧
    lookupCache (save_to_cache d 3600 s).2.cache k = lookupCache s.cache k ∧
    lookupCache (invalidate_cache (some i) s).2.cache ("product:" ++ toString i)
        = none ∧
    lookupCache (invalidate_cache (some i) s).2.cache k = lookupCache s.cache k := by
  have hkk : ("product:" ++ toString i) = cache_key (some i) := rfl
  have hsave : (save_to_cache d 3600 s).2.cache
      = setCache s.cache (cache_key (some i)) ⟨d, 3600⟩ := by
    unfold save_to_cache
    rw [hid]
    simp [hcf]
  have hinv : (invalidate_cache (some i) s).2.cache
      = eraseCache s.cache (cache_key (some i)) := by
    unfold invalidate_cache
    simp [hcf]
  refine ⟨rfl, ?_, ?_, ?_, ?_, ?_⟩
  · rw [show ("product:" ++ toString pid) = cache_key (some pid) from rfl]
    rcases hl : lookupCache s.cache (cache_key (some pid)) with _ | v <;>
      simp [get_from_cache, hcf, hl]
  · rw [hsave, hkk, lookup_setCache_self]
  · rw [hsave, lookup_setCache_ne]
    rw [← hkk]
    exact hk
  · rw [hinv, hkk, lookup_eraseCache_self]
  · rw [hinv, lookup_eraseCache_ne]
    rw [← hkk]
    exact hk

/-- Witness for C5: concrete get/set/delete for id 2 against a cache that
already holds `"product:1"`, which is untouched. -/
theorem c5_witness :
    cache_key (some 2) = "product:" ++ toString (2 : Int) ∧
    (get_from_cache 2 sysDbUp).1
        = (lookupCache sysDbUp.cache ("product:" ++ toString (2 : Int))).map CVal.data ∧
    lookupCache (save_to_cache ⟨some 2, some "B", some 20, none⟩ 3600 sysDbUp).2.cache
        ("product:" ++ toString (2 : Int))
        = some ⟨⟨some 2, some "B", some 20, none⟩, 3600⟩ ∧
    lookupCache (save_to_cache ⟨some 2, some "B", some 20, none⟩ 3600 sysDbUp).2.cache
        "product:1" = lookupCache sysDbUp.cache "product:1" ∧
    lookupCache (invalidate_cache (some 2) sysDbUp).2.cache
        ("product:" ++ toString (2 : Int)) = none ∧
    lookupCache (invalidate_cache (some 2) sysDbUp).2.cache "product:1"
        = lookupCache sysDbUp.cache "product:1" :=
  c5_cache_keys_product_prefixed 2 2 ⟨some 2, some "B", some 20, none⟩ sysDbUp
    "product:1" rfl rfl (by decide)

/-- C6: under every strategy, a read whose cache lookup hits records exactly
one cache-hit metric and returns the cached value with no other state
change — in particular, no store access of any kind. -/
theorem c6_cache_hit_returns_immediately (pid : Int) (s : Sys) (v : CVal)
    (hcf : s.cacheFail = false)
    (hv : lookupCache s.cache (cache_key (some pid)) = some v) :
    cache_aside_read pid s = (some v.data, s.record_cache_hit) ∧
    read_through_read pid s = (some v.data, s.record_cache_hit) ∧
    write_through_read pid s = (some v.data, s.record_cache_hit) ∧
    write_around_read pid s = (some v.data, s.record_cache_hit) ∧
    write_back_read pid s = (some v.data, s.record_cache_hit) := by
  have hg : get_from_cache pid s = (some v.data, s.record_cache_hit) := by
    simp [get_from_cache, hcf, hv]
  have hc : cache_aside_read pid s = (some v.data, s.record_cache_hit) := by
    unfold cache_aside_read
    rw [hg]
  have hr : read_through_read pid s = (some v.data, s.record_cache_hit) := by
    unfold read_through_read
    rw [hg]
  exact ⟨hc, hr, hc, hc, hc⟩

/-- Witness for C6: a concrete hit on the cached entry for id 1. -/
theorem c6_witness :
    cache_aside_read 1 sysDbUp
        = (some ⟨some 1, some "Old", some 5, none⟩, sysDbUp.record_cache_hit) ∧
    read_through_read 1 sysDbUp
        = (some ⟨some 1, some "Old", some 5, none⟩, sysDbUp.record_cache_hit) ∧
    write_through_read 1 sysDbUp
        = (some ⟨some 1, some "Old", some 5, none⟩, sysDbUp.record_cache_hit) ∧
    write_around_read 1 sysDbUp
        = (some ⟨some 1, some "Old", some 5, none⟩, sysDbUp.record_cache_hit) ∧
    write_back_read 1 sysDbUp
        = (some ⟨some 1, some "Old", some 5, none⟩, sysDbUp.record_cache_hit) :=
  c6_cache_hit_returns_immediately 1 sysDbUp
    ⟨⟨some 1, some "Old", some 5, none⟩, 3600⟩ rfl (by decide)

/-- Stopping a running pipeline whose queue ends in a valid item `d` drains
the queue, clears the running flag, and leaves `d`'s row in the store. -/
theorem stop_drains_and_persists_last (d : ProductData) (s : Sys) (i : Int)
    (n : String) (p : ℚ)
    (hid : d.id = some i) (hn : d.name = some n) (hp : d.price = some p)
    (hrun : s.running = true) (hdb : s.dbFail = false) (hwb : s.wbConnectFail = false)
    (hq : ∃ pre, s.queue = pre ++ [d]) :
    (stop_write_back_thread s).queue = [] ∧
    (stop_write_back_thread s).running = false ∧
    lookupDb (stop_write_back_thread s).db i = some ⟨n, p, d.description⟩ := by
  obtain ⟨pre, hqe⟩ := hq
  have hstop : stop_write_back_thread s
      = drainItems s.queue { s with running := false, queue := [] } := by
    unfold stop_write_back_thread
    rw [hrun]
    simp
  rw [hstop, hqe, drainItems_append]
  have h3db : (drainItems pre { s with running := false, queue := [] }).dbFail = false := by
    rw [drainItems_dbFail]
    exact hdb
  have h3wb : (drainItems pre { s with running := false, queue := [] }).wbConnectFail
      = false := by
    rw [drainItems_wbConnectFail]
    exact hwb
  refine ⟨?_, ?_, ?_⟩
  · rw [show drainItems [d] (drainItems pre { s with running := false, queue := [] })
        = process_item d (drainItems pre { s with running := false, queue := [] })
      from rfl]
    rw [process_item_queue, drainItems_queue]
  · rw [show drainItems [d] (drainItems pre { s with running := false, queue := [] })
        = process_item d (drainItems pre { s with running := false, queue := [] })
      from rfl]
    rw [process_item_running, drainItems_running]
  · rw [show drainItems [d] (drainItems pre { s with running := false, queue := [] })
        = process_item d (drainItems pre { s with running := false, queue := [] })
      from rfl]
    rw [process_item_valid_db d _ i n p hid hn hp h3db h3wb, lookup_setDb_self]

/-- C9: with the pipeline running and a healthy store, a record successfully
written via write_back and followed by `stop` is durable: the stop drains
the queue to empty (the worker keeps consuming after the stop signal), the
worker exits (running flag cleared), and the record's row is in the store
once stop completes. -/
theorem c9_write_back_then_stop_persists
    (d : ProductData) (s : Sys) (i : Int) (n : String) (p : ℚ)
    (hid : d.id = some i) (hn : d.name = some n) (hp : d.price = some p)
    (hrun : s.running = true) (hcf : s.cacheFail = false)
    (hdb : s.dbFail = false) (hwb : s.wbConnectFail = false) :
    (write_back_write d s).1 = Except.ok d ∧
    (stop_write_back_thread (write_back_write d s).2).queue = [] ∧
    (stop_write_back_thread (write_back_write d s).2).running = false ∧
    lookupDb (stop_write_back_thread (write_back_write d s).2).db i
        = some ⟨n, p, d.description⟩ := by
  have hw : write_back_write d s
      = (Except.ok d,
         { s with cache := setCache s.cache (cache_key (some i)) ⟨d, 3600⟩,
                  queue := s.queue ++ [d] }) := by
    unfold write_back_write save_to_cache
    rw [hid]
    simp [hcf]
  rw [hw]
  refine ⟨rfl, ?_⟩
  exact stop_drains_and_persists_last d _ i n p hid hn hp hrun hdb hwb ⟨s.queue, rfl⟩

/-- Witness for C9: a concrete write_back write on a running pipeline with a
non-empty pre-existing queue, followed by stop. -/
def sysRunning : Sys :=
  { cache := [], db := [], queue := [⟨some 7, some "Q", some 70, none⟩],
    running := true, metrics := ⟨0, 0, 0, 0⟩,
    cacheFail := false, dbFail := false, wbConnectFail := false }

theorem c9_witness :
    (write_back_write ⟨some 2, some "B", some 20, none⟩ sysRunning).1
        = Except.ok ⟨some 2, some "B", some 20, none⟩ ∧
    (stop_write_back_thread
        (write_back_write ⟨some 2, some "B", some 20, none⟩ sysRunning).2).queue = [] ∧
    (stop_write_back_thread
        (write_back_write ⟨some 2, some "B", some 20, none⟩ sysRunning).2).running
        = false ∧
    lookupDb (stop_write_back_thread
        (write_back_write ⟨some 2, some "B", some 20, none⟩ sysRunning).2).db 2
        = some ⟨"B", 20, none⟩ :=
  c9_write_back_then_stop_persists ⟨some 2, some "B", some 20, none⟩ sysRunning
    2 "B" 20 rfl rfl rfl rfl rfl rfl rfl

/-- A running pipeline whose worker cannot open its sqlite connection. -/
def sysWbConnDown : Sys :=
  { cache := [], db := [], queue := [], running := true,
    metrics := ⟨0, 0, 0, 0⟩, cacheFail := false, dbFail := false, wbConnectFail := true }

/-- C10 counterexample: a valid dequeued item whose worker connection fails
to open is dropped without incrementing db_writes — so the counter is not
incremented for every dequeued item. -/
theorem c10_counterexample :
    (process_item ⟨some 3, some "C", some 30, none⟩ sysWbConnDown).metrics.db_writes
        = 0 ∧
    ¬((process_item ⟨some 3, some "C", some 30, none⟩ sysWbConnDown).metrics.db_writes
        = sysWbConnDown.metrics.db_writes + 1) := by
  refine ⟨rfl, by decide⟩

/-- C10 (amended): db_writes counts persistence attempts, not durable
writes: the synchronous save path increments it unconditionally (the
increment precedes validation and the DB operation, so it also happens when
either fails), and the worker increments it for every dequeued item once its
own sqlite connection opens; only a failed worker connection skips the
increment and drops the item. -/
theorem c10_db_writes_counts_attempts (d : ProductData) (s : Sys) :
    (save_to_db d s).2.metrics.db_writes = s.metrics.db_writes + 1 ∧
    (s.wbConnectFail = false →
      (process_item d s).metrics.db_writes = s.metrics.db_writes + 1) ∧
    (s.wbConnectFail = true →
      (process_item d s).metrics.db_writes = s.metrics.db_writes) := by
  obtain ⟨oid, oname, oprice, odesc⟩ := d
  obtain ⟨c, db, q, r, m, cf, df, wf⟩ := s
  cases wf <;> cases df <;> cases oid <;> cases oname <;> cases oprice <;>
    refine ⟨rfl, ?_, ?_⟩ <;> intro h <;> first | rfl | exact Bool.noConfusion h

/-- Witness for C10: the sync path increments on invalid data (a `ValueError`
attempt), and the worker increments on an item whose upsert hits a DB error
(attempt counted, nothing persisted). -/
theorem c10_witness :
    (save_to_db ⟨some 9, none, none, none⟩ sysOk).2.metrics.db_writes
        = sysOk.metrics.db_writes + 1 ∧
    (process_item ⟨some 9, some "X", some 1, none⟩ sysDbDown).metrics.db_writes
        = sysDbDown.metrics.db_writes + 1 :=
  ⟨(c10_db_writes_counts_attempts ⟨some 9, none, none, none⟩ sysOk).1,
   (c10_db_writes_counts_attempts ⟨some 9, some "X", some 1, none⟩ sysDbDown).2.1 rfl⟩

end CachingDemo
